import Mathlib

/-!
Shallow embedding of `custom_components/adax2/climate.py`: the `AdaxAPI`
HTTP client (token refresh, room listing, temperature setting) and the
`AdaxClimate` polled entity built on top of it.

Network effects are made explicit: each operation takes a `Net` value
describing the outcome the transport would deliver for each kind of
request, and returns — alongside its Python return value and the updated
object state — the list of network calls it actually issued.  Python
floats are modelled as rationals, Python `None`-able strings as
`Option String`, and JSON room objects as records of optional fields
(a `none` field models an absent key).
-/

namespace Adax

/-- Truthiness of an optional string, as Python evaluates `if x:`
(`None` and the empty string are falsy). -/
def pyTruthy : Option String → Bool
  | none => false
  | some s => !s.isEmpty

/-- Python `int()` applied to a real value: truncation toward zero. -/
def pyInt (q : ℚ) : ℤ := if 0 ≤ q then ⌊q⌋ else ⌈q⌉

/-- One JSON object of the `rooms` array of the content endpoint.
A `none` field models the key being absent from the object. -/
structure Room where
  id : Option ℤ
  name : Option String
  temperature : Option ℤ
  targetTemperature : Option ℤ
deriving DecidableEq, Repr

/-- A network request issued by the client, with the data that went on
the wire for the control POST. -/
inductive NetCall where
  | tokenExchange
  | contentGet
  | controlPost (room_id : Option ℤ) (targetTemperature : ℤ)
deriving DecidableEq, Repr

/-- Environment: what the transport would answer to each kind of request.
`Except.error` models a raised transport/HTTP exception (including
`raise_for_status` on a non-2xx response); for the content GET, `.ok none`
models a 2xx JSON body without a `rooms` key. -/
structure Net where
  exchange : Except Unit String
  content : Except Unit (Option (List Room))
  control : Except Unit Unit

/-- The mutable state of an `AdaxAPI` instance. -/
structure AdaxAPI where
  token : Option String
  client_id : Option String
  client_password : Option String
deriving DecidableEq, Repr

/-- `AdaxAPI.refresh_token`: performs the password-grant exchange; on
success stores the obtained token, on any exception logs and stores
`None`. -/
def AdaxAPI.refresh_token (api : AdaxAPI) (net : Net) : AdaxAPI × List NetCall :=
  match net.exchange with
  | .ok tok => ({ api with token := some tok }, [.tokenExchange])
  | .error _ => ({ api with token := none }, [.tokenExchange])

/-- The guard `if not self._token and self._client_id and self._client_password:
self.refresh_token()` that opens both `get_rooms` and `set_temperature`. -/
def AdaxAPI.ensure (api : AdaxAPI) (net : Net) : AdaxAPI × List NetCall :=
  if !pyTruthy api.token && pyTruthy api.client_id && pyTruthy api.client_password then
    api.refresh_token net
  else (api, [])

/-- `AdaxAPI.get_rooms`: after the refresh attempt, returns `[]` when no
token is held; otherwise issues the content GET and returns
`data.get("rooms", [])` on success and `[]` on any exception. -/
def AdaxAPI.get_rooms (api : AdaxAPI) (net : Net) : List Room × AdaxAPI × List NetCall :=
  let a := api.ensure net
  if !pyTruthy a.1.token then ([], a.1, a.2)
  else
    match net.content with
    | .ok data => (data.getD [], a.1, a.2 ++ [.contentGet])
    | .error _ => ([], a.1, a.2 ++ [.contentGet])

/-- `AdaxAPI.set_temperature`: after the refresh attempt, returns `False`
when no token is held; otherwise POSTs
`{"rooms": [{"id": room_id, "targetTemperature": int(float(temperature) * 100)}]}`
and returns `True` on 2xx, `False` on any exception. -/
def AdaxAPI.set_temperature (api : AdaxAPI) (room_id : Option ℤ) (temperature : ℚ)
    (net : Net) : Bool × AdaxAPI × List NetCall :=
  let a := api.ensure net
  if !pyTruthy a.1.token then (false, a.1, a.2)
  else
    match net.control with
    | .ok _ => (true, a.1, a.2 ++ [.controlPost room_id (pyInt (temperature * 100))])
    | .error _ => (false, a.1, a.2 ++ [.controlPost room_id (pyInt (temperature * 100))])

/-- The `targetTemperature` integer of the first control POST in a call
trace, if any. -/
def controlTarget : List NetCall → Option ℤ
  | [] => none
  | .controlPost _ t :: _ => some t
  | _ :: rest => controlTarget rest

/-- The `targetTemperature` integer serialized on the wire by one
`AdaxAPI.set_temperature` invocation (if a control POST was issued). -/
def serializedTarget (api : AdaxAPI) (room_id : Option ℤ) (t : ℚ) (net : Net) : Option ℤ :=
  controlTarget (api.set_temperature room_id t net).2.2

/-- The HVAC modes of the Home Assistant climate entity. -/
inductive HvacMode where
  | off
  | heat
deriving DecidableEq, Repr

/-- The mutable state of an `AdaxClimate` entity. -/
structure AdaxClimate where
  api : AdaxAPI
  room_id : Option ℤ
  name : String
  current_temperature : Option ℚ
  target_temperature : Option ℚ
  hvac_mode : HvacMode
deriving DecidableEq, Repr

/-- Python `str` of an optional integer, as an f-string renders it. -/
def idString : Option ℤ → String
  | some n => toString n
  | none => "None"

/-- `AdaxClimate.__init__`: binds the API client and room data; current and
target temperature start as `None`, the mode is fixed at HEAT. -/
def AdaxClimate.init (api : AdaxAPI) (room : Room) : AdaxClimate :=
  { api := api
    room_id := room.id
    name := room.name.getD ("Adax Element " ++ idString room.id)
    current_temperature := none
    target_temperature := none
    hvac_mode := .heat }

/-- The `hvac_modes` property (a constant). -/
def AdaxClimate.hvac_modes : List HvacMode := [.off, .heat]

/-- `AdaxClimate.set_temperature`: `kwargs.get("temperature")` absent means
return immediately; otherwise call the API and, on `True`, overwrite the
local target and schedule a re-render (the final `Bool` of the result). -/
def AdaxClimate.set_temperature (c : AdaxClimate) (temperature : Option ℚ) (net : Net) :
    AdaxClimate × List NetCall × Bool :=
  match temperature with
  | none => (c, [], false)
  | some t =>
    let r := c.api.set_temperature c.room_id t net
    if r.1 then ({ c with api := r.2.1, target_temperature := some t }, r.2.2, true)
    else ({ c with api := r.2.1 }, r.2.2, false)

/-- `AdaxClimate.update`: fetch all rooms, take the first entry whose `id`
equals this device's room id, and overwrite each local temperature field
only when the corresponding key is present (dividing by 100). -/
def AdaxClimate.update (c : AdaxClimate) (net : Net) : AdaxClimate × List NetCall :=
  let g := c.api.get_rooms net
  let c1 := { c with api := g.2.1 }
  match g.1.find? (fun r => r.id == c1.room_id) with
  | none => (c1, g.2.2)
  | some r =>
    let c2 := match r.temperature with
      | some v => { c1 with current_temperature := some ((v : ℚ) / 100) }
      | none => c1
    let c3 := match r.targetTemperature with
      | some v => { c2 with target_temperature := some ((v : ℚ) / 100) }
      | none => c2
    (c3, g.2.2)

/-! ## Concrete fixtures used by witnesses and counterexamples -/

/-- An API client holding a (truthy) bearer token and no credentials. -/
def apiTok : AdaxAPI := ⟨some "tok", none, none⟩

/-- A network in which only the control POST succeeds. -/
def netCtrlOk : Net := ⟨.error (), .error (), .ok ()⟩

/-- A climate entity for room 5, with a token-bearing API client. -/
def climate5 : AdaxClimate := ⟨apiTok, some 5, "room5", none, none, .heat⟩

/-- A climate entity for room 5 with populated local temperatures. -/
def climate5' : AdaxClimate := ⟨apiTok, some 5, "room5", some 1, some 2, .heat⟩

/-- A room-5 JSON entry carrying temperature 999 and target 998. -/
def roomA : Room := ⟨some 5, none, some 999, some 998⟩

/-- The room-5 JSON entry of claim C4: temperature 2137, target 2200. -/
def roomB : Room := ⟨some 5, none, some 2137, some 2200⟩

/-! ## Helper lemmas -/

/-- The opening refresh guard issues at most the token exchange. -/
theorem ensure_calls (api : AdaxAPI) (net : Net) :
    (api.ensure net).2 = [] ∨ (api.ensure net).2 = [NetCall.tokenExchange] := by
  unfold AdaxAPI.ensure AdaxAPI.refresh_token
  split
  · cases net.exchange <;> simp
  · simp

/-! ## Claims -/

/-- C1 (amended): whenever `AdaxAPI.set_temperature` serializes a request
body, the `targetTemperature` integer it places there is `int(t * 100)`
(truncation toward zero, not rounding); in particular, for t = 21.5 the
serialized value is 2150. -/
theorem set_temperature_serializes_truncation (api : AdaxAPI) (rid : Option ℤ) (t : ℚ)
    (net : Net) :
    (serializedTarget api rid t net = none ∨
      serializedTarget api rid t net = some (pyInt (t * 100))) ∧
    pyInt ((21.5 : ℚ) * 100) = 2150 ∧
    serializedTarget apiTok (some 1) 21.5 netCtrlOk = some 2150 := by
  refine ⟨?_, by norm_num [pyInt], ?_⟩
  · unfold serializedTarget AdaxAPI.set_temperature
    rcases ensure_calls api net with h | h <;>
      rcases hc : net.control with u | u <;>
        rcases ht : pyTruthy (api.ensure net).1.token <;>
          simp [h, hc, ht, controlTarget]
  · simp [serializedTarget, AdaxAPI.set_temperature, AdaxAPI.ensure, apiTok, netCtrlOk,
      pyTruthy, controlTarget]
    norm_num [pyInt]

/-- C1 (counterexample): for t = 9/1000 the code serializes
`targetTemperature = 0`, while `round(t * 100) = round(0.9) = 1`, so the
serialized integer is not `round(t * 100)`. -/
theorem set_temperature_round_counterexample :
    serializedTarget apiTok (some 1) (9/1000) netCtrlOk = some 0 ∧
    round ((9/1000 : ℚ) * 100) = 1 := by
  constructor
  · simp [serializedTarget, AdaxAPI.set_temperature, AdaxAPI.ensure, apiTok, netCtrlOk,
      pyTruthy, controlTarget]
    norm_num [pyInt]
  · norm_num [round_eq]

/-- C2: `AdaxAPI.get_rooms` is total (never raises): when no token is held
after the opening refresh attempt it returns the empty list, and when the
content GET raises (transport error or non-2xx status) it also returns the
empty list. -/
theorem get_rooms_failure_empty (api : AdaxAPI) (net : Net) :
    (pyTruthy (api.ensure net).1.token = false → (api.get_rooms net).1 = []) ∧
    (∀ e : Unit, net.content = .error e → (api.get_rooms net).1 = []) := by
  constructor
  · intro h
    unfold AdaxAPI.get_rooms
    simp [h]
  · intro e he
    unfold AdaxAPI.get_rooms
    rcases h : pyTruthy (api.ensure net).1.token <;> simp [h, he]

/-- C2 (witness): a credential-less client with a failing transport returns
`[]` by both parts of the theorem. -/
theorem get_rooms_failure_empty_witness :
    ((⟨none, none, none⟩ : AdaxAPI).get_rooms ⟨.error (), .error (), .error ()⟩).1 = [] ∧
    ((⟨none, none, none⟩ : AdaxAPI).get_rooms ⟨.error (), .error (), .error ()⟩).1 = [] :=
  ⟨(get_rooms_failure_empty ⟨none, none, none⟩ ⟨.error (), .error (), .error ()⟩).1 rfl,
    (get_rooms_failure_empty ⟨none, none, none⟩ ⟨.error (), .error (), .error ()⟩).2 () rfl⟩

/-- C3: when the token exchange raises, `AdaxAPI.refresh_token` stores
`None` as the token (leaving the credentials untouched) and returns
normally — no exception escapes to the caller. -/
theorem refresh_token_error_clears (api : AdaxAPI) (net : Net)
    (h : net.exchange = .error ()) :
    (api.refresh_token net).1 = { api with token := none } := by
  simp [AdaxAPI.refresh_token, h]

/-- C3 (witness): a failing exchange clears a previously held token. -/
theorem refresh_token_error_clears_witness :
    ((⟨some "old", some "id", some "pw"⟩ : AdaxAPI).refresh_token
      ⟨.error (), .error (), .error ()⟩).1 = ⟨none, some "id", some "pw"⟩ :=
  refresh_token_error_clears ⟨some "old", some "id", some "pw"⟩
    ⟨.error (), .error (), .error ()⟩ rfl

/-- C4 (counterexample): a rooms list can contain the entry
`{id: 5, temperature: 2137, targetTemperature: 2200}` while the device for
room 5 picks up an earlier entry with the same id, ending with current
temperature 9.99 rather than 21.37 — mere membership of the entry does not
determine the poll result. -/
theorem update_contains_entry_counterexample :
    roomB ∈ (climate5.api.get_rooms ⟨.error (), .ok (some [roomA, roomB]), .error ()⟩).1 ∧
    climate5.room_id = some 5 ∧
    (climate5.update ⟨.error (), .ok (some [roomA, roomB]), .error ()⟩).1.current_temperature
      = some (999/100) ∧
    ((999 : ℚ)/100) ≠ 21.37 := by
  refine ⟨?_, rfl, ?_, by norm_num⟩
  · simp [climate5, apiTok, AdaxAPI.get_rooms, AdaxAPI.ensure, pyTruthy,
      show "tok".isEmpty = false from rfl]
  · simp [climate5, apiTok, AdaxClimate.update, AdaxAPI.get_rooms, AdaxAPI.ensure,
      pyTruthy, roomA, roomB, List.find?]

/-- C4 (amended): if the FIRST entry of the `list_rooms` result whose id is
5 is `{id: 5, temperature: 2137, targetTemperature: 2200}` — in particular
whenever that entry is the only one for room 5 — then `update` on the
device for room 5 sets current temperature 21.37 and target temperature
22.00. -/
theorem update_room5_sets_hundredths (c : AdaxClimate) (net : Net) (pre post : List Room)
    (hc : c.room_id = some 5)
    (hpre : ∀ r ∈ pre, (r.id == (some 5 : Option ℤ)) = false)
    (hrooms : (c.api.get_rooms net).1 = pre ++ roomB :: post) :
    (c.update net).1.current_temperature = some 21.37 ∧
    (c.update net).1.target_temperature = some 22.00 := by
  have hfind : (c.api.get_rooms net).1.find? (fun r => r.id == c.room_id) = some roomB := by
    rw [hrooms, hc, List.find?_append, List.find?_eq_none.mpr fun r hr => by simp [hpre r hr],
      List.find?_cons_of_pos _ (by rfl)]
    rfl
  constructor <;> · simp [AdaxClimate.update, hfind, roomB]; norm_num

/-- C4 (witness): a single-entry response for room 5. -/
theorem update_room5_sets_hundredths_witness :
    (climate5.update ⟨.error (), .ok (some [roomB]), .error ()⟩).1.current_temperature
      = some 21.37 ∧
    (climate5.update ⟨.error (), .ok (some [roomB]), .error ()⟩).1.target_temperature
      = some 22.00 :=
  update_room5_sets_hundredths climate5 ⟨.error (), .ok (some [roomB]), .error ()⟩ [] []
    rfl (by simp) rfl

/-- C5: when no entry of the `list_rooms` result has this device's room id
(in particular when the list is empty), `update` leaves the local current
and target temperature unchanged, and returns normally (no error). -/
theorem update_no_match_frame (c : AdaxClimate) (net : Net)
    (h : ∀ r ∈ (c.api.get_rooms net).1, (r.id == c.room_id) = false) :
    (c.update net).1.current_temperature = c.current_temperature ∧
    (c.update net).1.target_temperature = c.target_temperature := by
  have hfind : (c.api.get_rooms net).1.find? (fun r => r.id == c.room_id) = none :=
    List.find?_eq_none.mpr fun r hr => by simp [h r hr]
  constructor <;> simp [AdaxClimate.update, hfind]

/-- C5 (witness): an empty rooms list leaves the populated local
temperatures of `climate5'` intact. -/
theorem update_no_match_frame_witness :
    (climate5'.update ⟨.error (), .ok (some []), .error ()⟩).1.current_temperature = some 1 ∧
    (climate5'.update ⟨.error (), .ok (some []), .error ()⟩).1.target_temperature = some 2 :=
  update_no_match_frame climate5' ⟨.error (), .ok (some []), .error ()⟩
    (by
      intro r hr
      simp [AdaxAPI.get_rooms, AdaxAPI.ensure, climate5', apiTok, pyTruthy,
        show "tok".isEmpty = false from rfl] at hr)

/-- C6: `AdaxClimate.set_temperature` with no `temperature` kwarg returns
immediately: the entity state is unchanged, no network call is issued, and
no re-render is scheduled. -/
theorem set_target_none_noop (c : AdaxClimate) (net : Net) :
    c.set_temperature none net = (c, [], false) := rfl

/-- C7: with a present temperature t, if the API call returns `True` the
entity overwrites its local target temperature with t and schedules a
re-render, leaving every other local field unchanged; if it returns
`False`, every local field is unchanged and no re-render is scheduled —
in both cases the method returns normally. -/
theorem set_target_result (c : AdaxClimate) (t : ℚ) (net : Net) :
    ((c.api.set_temperature c.room_id t net).1 = true →
      (c.set_temperature (some t) net).1.target_temperature = some t ∧
      (c.set_temperature (some t) net).2.2 = true ∧
      (c.set_temperature (some t) net).1.current_temperature = c.current_temperature ∧
      (c.set_temperature (some t) net).1.hvac_mode = c.hvac_mode ∧
      (c.set_temperature (some t) net).1.room_id = c.room_id ∧
      (c.set_temperature (some t) net).1.name = c.name) ∧
    ((c.api.set_temperature c.room_id t net).1 = false →
      (c.set_temperature (some t) net).1.current_temperature = c.current_temperature ∧
      (c.set_temperature (some t) net).1.target_temperature = c.target_temperature ∧
      (c.set_temperature (some t) net).1.hvac_mode = c.hvac_mode ∧
      (c.set_temperature (some t) net).1.room_id = c.room_id ∧
      (c.set_temperature (some t) net).1.name = c.name ∧
      (c.set_temperature (some t) net).2.2 = false) := by
  cases h : (c.api.set_temperature c.room_id t net).1 <;>
    simp [AdaxClimate.set_temperature, h]

/-- C7 (witness): a successful control POST overwrites the target of
`climate5'` and schedules a re-render; a failed one (no token, no
credentials) leaves the target intact with no re-render. -/
theorem set_target_result_witness :
    (climate5'.set_temperature (some 21) netCtrlOk).1.target_temperature = some 21 ∧
    (climate5'.set_temperature (some 21) netCtrlOk).2.2 = true ∧
    ((⟨⟨none, none, none⟩, some 5, "r", some 1, some 2, .heat⟩ : AdaxClimate).set_temperature
        (some 21) netCtrlOk).1.target_temperature = some 2 ∧
    ((⟨⟨none, none, none⟩, some 5, "r", some 1, some 2, .heat⟩ : AdaxClimate).set_temperature
        (some 21) netCtrlOk).2.2 = false :=
  ⟨((set_target_result climate5' 21 netCtrlOk).1 rfl).1,
    ((set_target_result climate5' 21 netCtrlOk).1 rfl).2.1,
    ((set_target_result ⟨⟨none, none, none⟩, some 5, "r", some 1, some 2, .heat⟩
        21 netCtrlOk).2 rfl).2.1,
    ((set_target_result ⟨⟨none, none, none⟩, some 5, "r", some 1, some 2, .heat⟩
        21 netCtrlOk).2 rfl).2.2.2.2.2⟩

/-- C8: with no token held and no complete client_id/client_password pair,
`AdaxAPI.get_rooms` returns the empty list, leaves the client unchanged,
and issues no network call at all (empty call trace). -/
theorem get_rooms_no_credentials (api : AdaxAPI) (net : Net)
    (h1 : api.token = none)
    (h2 : api.client_id = none ∨ api.client_password = none) :
    api.get_rooms net = ([], api, []) := by
  have he : api.ensure net = (api, []) := by
    unfold AdaxAPI.ensure
    rcases h2 with h2 | h2 <;> simp [pyTruthy, h1, h2]
  unfold AdaxAPI.get_rooms
  simp [he, pyTruthy, h1]

/-- C8 (witness): even against a network that would answer every request,
a client with no token and only a client_id makes no call. -/
theorem get_rooms_no_credentials_witness :
    (⟨none, some "id", none⟩ : AdaxAPI).get_rooms ⟨.ok "newtok", .ok (some [roomA]), .ok ()⟩
      = ([], ⟨none, some "id", none⟩, []) :=
  get_rooms_no_credentials ⟨none, some "id", none⟩ ⟨.ok "newtok", .ok (some [roomA]), .ok ()⟩
    rfl (Or.inr rfl)

/-- C9: the HVAC mode is HEAT at construction and is preserved by both
`update` and `set_temperature`; OFF is advertised in `hvac_modes` but is
never set. -/
theorem hvac_mode_always_heat (api : AdaxAPI) (room : Room) (c : AdaxClimate)
    (t : Option ℚ) (net : Net) :
    (AdaxClimate.init api room).hvac_mode = .heat ∧
    (c.update net).1.hvac_mode = c.hvac_mode ∧
    (c.set_temperature t net).1.hvac_mode = c.hvac_mode ∧
    HvacMode.off ∈ AdaxClimate.hvac_modes ∧
    HvacMode.heat ∈ AdaxClimate.hvac_modes := by
  refine ⟨rfl, ?_, ?_, by simp [AdaxClimate.hvac_modes], by simp [AdaxClimate.hvac_modes]⟩
  · rcases hfind : (c.api.get_rooms net).1.find? (fun r => r.id == c.room_id) with _ | r
    · simp [AdaxClimate.update, hfind]
    · rcases r with ⟨i, n, tp, tt⟩
      rcases tp with _ | v <;> rcases tt with _ | w <;> simp [AdaxClimate.update, hfind]
  · rcases t with _ | t
    · rfl
    · cases h : (c.api.set_temperature c.room_id t net).1 <;>
        simp [AdaxClimate.set_temperature, h]

/-- C10: when `update` finds the entry for this device's room id, a local
field is overwritten only if the corresponding key is present in the
entry: with no `"temperature"` key the current temperature is unchanged,
and with no `"targetTemperature"` key the target temperature is
unchanged. -/
theorem update_partial_overwrite (c : AdaxClimate) (net : Net) (r : Room)
    (h : (c.api.get_rooms net).1.find? (fun x => x.id == c.room_id) = some r) :
    (r.temperature = none →
      (c.update net).1.current_temperature = c.current_temperature) ∧
    (r.targetTemperature = none →
      (c.update net).1.target_temperature = c.target_temperature) := by
  constructor
  · intro ht
    rcases htt : r.targetTemperature with _ | w <;>
      simp [AdaxClimate.update, h, ht, htt]
  · intro htt
    rcases ht : r.temperature with _ | v <;>
      simp [AdaxClimate.update, h, ht, htt]

/-- C10 (witness): a room-5 entry with both temperature keys absent leaves
the populated local temperatures of `climate5'` intact. -/
theorem update_partial_overwrite_witness :
    (climate5'.update ⟨.error (), .ok (some [⟨some 5, none, none, none⟩]), .error ()⟩).1.current_temperature
      = some 1 ∧
    (climate5'.update ⟨.error (), .ok (some [⟨some 5, none, none, none⟩]), .error ()⟩).1.target_temperature
      = some 2 :=
  ⟨(update_partial_overwrite climate5'
      ⟨.error (), .ok (some [⟨some 5, none, none, none⟩]), .error ()⟩
      ⟨some 5, none, none, none⟩ rfl).1 rfl,
    (update_partial_overwrite climate5'
      ⟨.error (), .ok (some [⟨some 5, none, none, none⟩]), .error ()⟩
      ⟨some 5, none, none, none⟩ rfl).2 rfl⟩

end Adax
